import Mathlib

/-!
Verification of the CoinMarketCap scraping pipeline
(`scraper.py`, `database.py`, `main.py`).

The Python source is shallowly embedded: pure data flow becomes Lean
functions, the database becomes an explicit state record threaded through
the persistence functions, and exceptions become `Except` / injected
failure flags.
-/

namespace CoinScraper

/-! ## Record Extractor — `scraper.py`, `parse_crypto_data` -/

/-- One extracted cryptocurrency record, the dictionary built in
`parse_crypto_data` (src/scraper.py lines 122–132).  All fields are the
trimmed cell texts. -/
structure CryptoInfo where
  rank : String
  name : String
  price : String
  oneHourChange : String
  twentyFourHourChange : String
  sevenDayChange : String
  marketCap : String
  volume24h : String
  circulatingSupply : String
deriving DecidableEq, Repr

/-- A table cell: `some s` means `.text` yields `s`; `none` models a cell
whose field access raises `AttributeError`. -/
abbrev Cell := Option String

/-- A `<tr>` row: its ordered list of `<td>` cells (`row.find_all('td')`). -/
abbrev HtmlRow := List Cell

/-- The rendered document as seen by BeautifulSoup: `table` is
`soup.find('table', {'class': 'cmc-table'})` — `none` when no such table
exists, otherwise the ordered `<tr>` list (header row included). -/
structure Soup where
  table : Option (List HtmlRow)

/-- Python `str.strip()` with no argument: remove leading and trailing
whitespace. -/
def pyStrip (s : String) : String :=
  ⟨((s.data.dropWhile Char.isWhitespace).reverse.dropWhile
      Char.isWhitespace).reverse⟩

/-- Body of the `for row in rows[1:]` loop (src/scraper.py lines 118–136):
a row with fewer than 10 cells (`len(cols) >= 10` fails) produces
nothing; otherwise cells 1–9 are read in order, and an `AttributeError`
on any access (a `none` cell) makes the whole row produce nothing
(`except ... continue`). -/
def parseRow (row : HtmlRow) : Option CryptoInfo :=
  match row with
  | _ :: c1 :: c2 :: c3 :: c4 :: c5 :: c6 :: c7 :: c8 :: c9 :: _ => do
    let s1 ← c1
    let s2 ← c2
    let s3 ← c3
    let s4 ← c4
    let s5 ← c5
    let s6 ← c6
    let s7 ← c7
    let s8 ← c8
    let s9 ← c9
    pure { rank := pyStrip s1, name := pyStrip s2, price := pyStrip s3,
           oneHourChange := pyStrip s4, twentyFourHourChange := pyStrip s5,
           sevenDayChange := pyStrip s6, marketCap := pyStrip s7,
           volume24h := pyStrip s8, circulatingSupply := pyStrip s9 }
  | _ => none

/-- `parse_crypto_data` (src/scraper.py lines 98–138): no table yields the
empty list; otherwise the header row is skipped and each remaining row
either appends one record or is skipped. -/
def parse_crypto_data (soup : Soup) : List CryptoInfo :=
  match soup.table with
  | none => []
  | some rows => (rows.drop 1).filterMap parseRow

/-! ## Content Loader — `scraper.py`, `scroll_to_load_content` -/

/-- The `while scroll_attempts < max_scrolls` loop of
`scroll_to_load_content` (src/scraper.py lines 77–93), with
`fuel = max_scrolls - scroll_attempts`.  `heights readIdx` is the value
the next `document.body.scrollHeight` read returns; the result counts the
scroll passes (loop-body executions) performed.  A pass whose re-read
height equals `lastHeight` breaks out; otherwise `last_height` is updated,
the attempt counter increases and the loop continues. -/
def scrollLoop (heights : Nat → Nat) (lastHeight readIdx : Nat) : Nat → Nat
  | 0 => 0
  | fuel + 1 =>
    let newHeight := heights readIdx
    if newHeight = lastHeight then 1
    else 1 + scrollLoop heights newHeight (readIdx + 1) fuel

/-- `scroll_to_load_content` (src/scraper.py lines 64–95): the initial
height read is `heights 0`, the loop starts with `scroll_attempts = 0`
and re-reads `heights 1, heights 2, ...`; returns the number of scroll
passes performed. -/
def scroll_to_load_content (heights : Nat → Nat) (maxScrolls : Nat) : Nat :=
  scrollLoop heights (heights 0) 1 maxScrolls

/-! ## Persistence Gateway — `database.py` -/

/-- The shape of the storage table created by `create_crypto_table`
(src/database.py lines 66–84): column list and secondary index list. -/
structure TableSchema where
  columns : List String
  indexes : List String
deriving DecidableEq, Repr

/-- The `CREATE TABLE` statement of `create_crypto_table`: ten data
columns plus the surrogate key, and the three secondary indexes. -/
def cryptoTableSchema : TableSchema :=
  { columns := ["id", "rank", "name", "price", "one_hour_change",
                "twenty_four_hour_change", "seven_day_change", "market_cap",
                "volume_24h", "circulating_supply", "scraped_at"],
    indexes := ["idx_name", "idx_rank", "idx_scraped_at"] }

/-- One persisted row, the tuple built in the `for crypto in crypto_data`
loop of `insert_crypto_data` (src/database.py lines 119–132).
`scraped_at` is a timestamp in abstract time units. -/
structure StoredRow where
  rank : Option Nat
  name : String
  price : String
  oneHourChange : String
  twentyFourHourChange : String
  sevenDayChange : String
  marketCap : String
  volume24h : String
  circulatingSupply : String
  scraped_at : Int
deriving DecidableEq, Repr

/-- The committed state of the SQL Server database: whether (and with
which shape) the crypto table exists, and its committed rows. -/
structure Database where
  schema : Option TableSchema
  rows : List StoredRow
deriving DecidableEq

/-- A live connection: the committed database plus the rows written in
the current transaction but not yet committed. -/
structure Conn where
  db : Database
  pending : List StoredRow
deriving DecidableEq

/-- `connection.commit()`: the pending writes become committed rows. -/
def commitConn (c : Conn) : Conn :=
  { db := { c.db with rows := c.db.rows ++ c.pending }, pending := [] }

/-- `connection.rollback()`: the pending writes are discarded. -/
def rollbackConn (c : Conn) : Conn :=
  { c with pending := [] }

/-- `create_crypto_table` (src/database.py lines 59–86): the guarded DDL
`IF NOT EXISTS (...) CREATE TABLE ...` creates the table with its three
indexes only when no table of that name exists, and is a no-op (not an
error) otherwise. -/
def create_crypto_table (c : Conn) : Conn :=
  match c.db.schema with
  | some _ => c
  | none => { c with db := { c.db with schema := some cryptoTableSchema } }

/-- Python `str.isdigit()` as used on the rank text: true iff the string
is non-empty and every character is a digit. -/
def pyIsDigit (s : String) : Bool :=
  !s.data.isEmpty && s.data.all Char.isDigit

/-- Python `int()` on a digit-only string: its decimal value. -/
def strToNat (s : String) : Nat :=
  s.data.foldl (fun a c => a * 10 + (c.toNat - 48)) 0

/-- One tuple of the batch (src/database.py lines 120–131):
`int(crypto['rank']) if crypto['rank'].isdigit() else None`, the eight
text fields verbatim, and the shared `current_time`. -/
def prepareRow (now : Int) (crypto : CryptoInfo) : StoredRow :=
  { rank := if pyIsDigit crypto.rank then some (strToNat crypto.rank) else none,
    name := crypto.name, price := crypto.price,
    oneHourChange := crypto.oneHourChange,
    twentyFourHourChange := crypto.twentyFourHourChange,
    sevenDayChange := crypto.sevenDayChange,
    marketCap := crypto.marketCap, volume24h := crypto.volume24h,
    circulatingSupply := crypto.circulatingSupply, scraped_at := now }

/-- `cursor.executemany(insert_query, rows)`: writes the rows into the
open transaction one at a time.  `failAt = some i` with `i` below the
batch size injects a `pyodbc.Error` on the write of row `i`: the rows
before it stay pending and the call reports failure (`false`). -/
def executemany (c : Conn) (rows : List StoredRow) (failAt : Option Nat) :
    Conn × Bool :=
  match failAt with
  | some i =>
    if i < rows.length then
      ({ c with pending := c.pending ++ rows.take i }, false)
    else
      ({ c with pending := c.pending ++ rows }, true)
  | none => ({ c with pending := c.pending ++ rows }, true)

/-- `insert_crypto_data` (src/database.py lines 89–148): ensure the table
and commit; take `current_time` once (`now`); build the tuple list; batch
insert and commit, returning `len(rows_to_insert)`; on a `pyodbc.Error`
roll the transaction back and re-raise (`Except.error`). -/
def insert_crypto_data (c : Conn) (cryptoData : List CryptoInfo) (now : Int)
    (failAt : Option Nat) : Conn × Except String Nat :=
  let c1 := commitConn (create_crypto_table c)
  let rowsToInsert := cryptoData.map (prepareRow now)
  match executemany c1 rowsToInsert failAt with
  | (c2, true) => (commitConn c2, .ok rowsToInsert.length)
  | (c2, false) => (rollbackConn c2, .error "pyodbc.Error")

/-- `save_to_sql_server` (src/database.py lines 151–173): empty input is
refused (`False`) before any connection is opened; `connectFail` injects
a connection failure; a fresh connection (no pending writes) runs
`insert_crypto_data`, and any exception from it is caught and mapped to
`False`. -/
def save_to_sql_server (db : Database) (cryptoData : List CryptoInfo)
    (now : Int) (connectFail : Bool) (failAt : Option Nat) :
    Database × Bool :=
  if cryptoData.isEmpty then (db, false)
  else if connectFail then (db, false)
  else
    match insert_crypto_data (Conn.mk db []) cryptoData now failAt with
    | (c, .ok _) => (c.db, true)
    | (c, .error _) => (c.db, false)

/-- `delete_old_data` (src/database.py lines 256–285): on any injected
error (connection, delete, or commit) the `except` clause returns 0 with
the uncommitted deletion rolled back; otherwise rows with
`scraped_at < now - days` are deleted, committed, and `cursor.rowcount`
(the number removed) is returned. -/
def delete_old_data (db : Database) (days : Int) (now : Int) (fail : Bool) :
    Database × Nat :=
  if fail then (db, 0)
  else
    let keep := db.rows.filter (fun r => !(r.scraped_at < now - days))
    ({ db with rows := keep }, db.rows.length - keep.length)

/-! ## Pipeline Orchestrator — `main.py` -/

/-- `main` (src/main.py lines 24–50): the scrape step may itself raise
(`scrapeResult = .error`), which the outer `except` catches; an empty
scrape logs failure and returns without touching the database; otherwise
the batch goes to `save_to_sql_server`.  The returned `Bool` is the
run's reported outcome (the success/failure log line). -/
def main (db : Database) (scrapeResult : Except String (List CryptoInfo))
    (now : Int) (connectFail : Bool) (failAt : Option Nat) :
    Database × Bool :=
  match scrapeResult with
  | .error _ => (db, false)
  | .ok cryptoData =>
    if cryptoData.isEmpty then (db, false)
    else save_to_sql_server db cryptoData now connectFail failAt

/-! ## Helper lemmas -/

theorem parseRow_of_short (row : HtmlRow) (h : row.length < 10) :
    parseRow row = none := by
  rcases row with _ | ⟨c0, _ | ⟨c1, _ | ⟨c2, _ | ⟨c3, _ | ⟨c4, _ | ⟨c5,
    _ | ⟨c6, _ | ⟨c7, _ | ⟨c8, _ | ⟨c9, rest⟩⟩⟩⟩⟩⟩⟩⟩⟩⟩ <;>
    first
    | rfl
    | (exfalso; simp only [List.length] at h; omega)

theorem parseRow_some_fields (row : HtmlRow) (r : CryptoInfo)
    (h : parseRow row = some r) :
    10 ≤ row.length ∧
      ∃ s2 s3, row.getD 2 none = some s2 ∧ row.getD 3 none = some s3 ∧
        r.name = pyStrip s2 ∧ r.price = pyStrip s3 := by
  rcases row with _ | ⟨c0, _ | ⟨c1, _ | ⟨c2, _ | ⟨c3, _ | ⟨c4, _ | ⟨c5,
    _ | ⟨c6, _ | ⟨c7, _ | ⟨c8, _ | ⟨c9, rest⟩⟩⟩⟩⟩⟩⟩⟩⟩⟩
  case cons.cons.cons.cons.cons.cons.cons.cons.cons.cons =>
    refine ⟨by simp, ?_⟩
    cases c1 with
    | none => simp [parseRow] at h
    | some s1 =>
    cases c2 with
    | none => simp [parseRow] at h
    | some s2 =>
    cases c3 with
    | none => simp [parseRow] at h
    | some s3 =>
    cases c4 with
    | none => simp [parseRow] at h
    | some s4 =>
    cases c5 with
    | none => simp [parseRow] at h
    | some s5 =>
    cases c6 with
    | none => simp [parseRow] at h
    | some s6 =>
    cases c7 with
    | none => simp [parseRow] at h
    | some s7 =>
    cases c8 with
    | none => simp [parseRow] at h
    | some s8 =>
    cases c9 with
    | none => simp [parseRow] at h
    | some s9 =>
    injection h with h2
    subst h2
    exact ⟨s2, s3, rfl, rfl, rfl, rfl⟩
  all_goals exact absurd h (by simp [parseRow])

theorem countP_isNone_add_length_filterMap {α β : Type} (f : α → Option β) :
    ∀ l : List α,
      l.countP (fun a => (f a).isNone) + (l.filterMap f).length = l.length := by
  intro l
  induction l with
  | nil => simp
  | cons a t ih =>
    cases h : f a <;>
      simp [List.filterMap_cons, h, List.countP_cons, ih] <;> omega

theorem scrollLoop_le (heights : Nat → Nat) :
    ∀ (fuel lastHeight readIdx : Nat),
      scrollLoop heights lastHeight readIdx fuel ≤ fuel := by
  intro fuel
  induction fuel with
  | zero => intro lh ri; simp [scrollLoop]
  | succ n ih =>
    intro lh ri
    simp only [scrollLoop]
    split
    · omega
    · have := ih (heights ri) (ri + 1)
      omega

/-! ## The claims -/

/-- C3: for every sequence of heights the browser reports — including one
that never stabilizes — the scroll loop of `scroll_to_load_content`
performs at most `maxScrolls` scroll passes: the attempt counter
(`maxScrolls - fuel`) strictly increases on every non-stabilizing pass
and the loop exits when the height is unchanged or the counter reaches
`maxScrolls`. -/
theorem scroll_terminates_within_bound (heights : Nat → Nat)
    (maxScrolls : Nat) :
    scroll_to_load_content heights maxScrolls ≤ maxScrolls :=
  scrollLoop_le heights maxScrolls (heights 0) 1

/-- C4: in a document with a table, the extractor is exactly the in-order
`filterMap` over the data rows (header skipped), every data row with
fewer than 10 cells is excluded, the number of skipped rows plus the
number of returned records accounts for every data row, and a good row's
record survives no matter which malformed rows surround it. -/
theorem malformed_rows_skipped_and_counted (soup : Soup)
    (rows : List HtmlRow) (h : soup.table = some rows) :
    parse_crypto_data soup = (rows.drop 1).filterMap parseRow ∧
    (∀ row ∈ rows.drop 1, row.length < 10 → parseRow row = none) ∧
    (rows.drop 1).countP (fun row => (parseRow row).isNone)
        + (parse_crypto_data soup).length = (rows.drop 1).length ∧
    (∀ row ∈ rows.drop 1, ∀ r, parseRow row = some r →
        r ∈ parse_crypto_data soup) := by
  have hp : parse_crypto_data soup = (rows.drop 1).filterMap parseRow := by
    simp [parse_crypto_data, h]
  refine ⟨hp, fun row _ hlen => parseRow_of_short row hlen, ?_, ?_⟩
  · rw [hp]; exact countP_isNone_add_length_filterMap parseRow (rows.drop 1)
  · intro row hrow r hr
    rw [hp]
    exact List.mem_filterMap.mpr ⟨row, hrow, hr⟩

/-- The rows of the witness document for C4: a header, one well-formed
data row, and one data row with only 2 cells. -/
def c4Rows : List HtmlRow :=
  [List.replicate 10 (some "h"), List.replicate 10 (some "a"),
   [some "x", some "y"]]

/-- The witness document for C4. -/
def c4Doc : Soup := ⟨some c4Rows⟩

/-- Witness for C4 at a concrete document containing a short row. -/
theorem malformed_rows_skipped_and_counted_witness :
    parse_crypto_data c4Doc = (c4Rows.drop 1).filterMap parseRow ∧
    (∀ row ∈ c4Rows.drop 1, row.length < 10 → parseRow row = none) ∧
    (c4Rows.drop 1).countP (fun row => (parseRow row).isNone)
        + (parse_crypto_data c4Doc).length = (c4Rows.drop 1).length ∧
    (∀ row ∈ c4Rows.drop 1, ∀ r, parseRow row = some r →
        r ∈ parse_crypto_data c4Doc) :=
  malformed_rows_skipped_and_counted c4Doc c4Rows rfl

/-- A document whose single data row has 10 cells that all carry empty
text: every `.text.strip()` succeeds and yields `""`. -/
def emptyCellsDoc : Soup :=
  ⟨some [List.replicate 10 (some "h"), List.replicate 10 (some "")]⟩

/-- C2 counterexample: the extractor returns a record whose name and
price are both empty — rows with empty (but present) name or price text
are NOT discarded by `parse_crypto_data`. -/
theorem extractor_keeps_empty_name_and_price :
    ¬ (∀ r ∈ parse_crypto_data emptyCellsDoc, r.name ≠ "" ∧ r.price ≠ "") := by
  decide

/-- C2 (amended): every record returned by the extractor comes from a
data row with at least 10 cells whose name and price cell accesses
succeeded (no `AttributeError`); its name and price are the stripped
texts of cells 2 and 3, which may be empty — the extractor performs no
non-emptiness check. -/
theorem extractor_name_price_from_present_cells (soup : Soup)
    (rows : List HtmlRow) (r : CryptoInfo) (h : soup.table = some rows)
    (hr : r ∈ parse_crypto_data soup) :
    ∃ row ∈ rows.drop 1, 10 ≤ row.length ∧
      ∃ s2 s3, row.getD 2 none = some s2 ∧ row.getD 3 none = some s3 ∧
        r.name = pyStrip s2 ∧ r.price = pyStrip s3 := by
  rw [show parse_crypto_data soup = (rows.drop 1).filterMap parseRow by
        simp [parse_crypto_data, h]] at hr
  obtain ⟨row, hrow, hpr⟩ := List.mem_filterMap.mp hr
  obtain ⟨hlen, s2, s3, h2, h3, hn, hp⟩ := parseRow_some_fields row r hpr
  exact ⟨row, hrow, hlen, s2, s3, h2, h3, hn, hp⟩

/-- The record extracted from the all-empty-text row of `emptyCellsDoc`. -/
def emptyTextRec : CryptoInfo := ⟨"", "", "", "", "", "", "", "", ""⟩

/-- Witness for the amended C2 at the concrete document whose data row
has empty cell texts. -/
theorem extractor_name_price_witness :
    ∃ row ∈ [(List.replicate 10 (some "") : HtmlRow)], 10 ≤ row.length ∧
      ∃ s2 s3, row.getD 2 none = some s2 ∧ row.getD 3 none = some s3 ∧
        emptyTextRec.name = pyStrip s2 ∧ emptyTextRec.price = pyStrip s3 :=
  extractor_name_price_from_present_cells emptyCellsDoc
    [List.replicate 10 (some "h"), List.replicate 10 (some "")]
    emptyTextRec rfl (by decide)

/-- A write failure on a fresh connection rolls the transaction back and
re-raises: committed rows are untouched and the call errors. -/
theorem insert_fail_state (c : Conn) (data : List CryptoInfo) (now : Int)
    (i : Nat) (hpend : c.pending = []) (hi : i < data.length) :
    (insert_crypto_data c data now (some i)).1.db.rows = c.db.rows ∧
    (insert_crypto_data c data now (some i)).2 = .error "pyodbc.Error" := by
  obtain ⟨⟨sch, rws⟩, pend⟩ := c
  simp only at hpend
  subst hpend
  cases sch <;>
    simp [insert_crypto_data, executemany, create_crypto_table, commitConn,
      rollbackConn, hi]

/-- C1: the batch insert is all-or-nothing: a `pyodbc.Error` injected on
any row of the batch rolls the transaction back — the committed table
rows are exactly what they were before the call — and the error is
re-raised to the caller rather than swallowed. -/
theorem insert_all_or_nothing (c : Conn) (data : List CryptoInfo) (now : Int)
    (i : Nat) (hpend : c.pending = []) (hi : i < data.length) :
    (insert_crypto_data c data now (some i)).1.db.rows = c.db.rows ∧
    (insert_crypto_data c data now (some i)).2 = .error "pyodbc.Error" :=
  insert_fail_state c data now i hpend hi

/-- A worked example record (well-formed row of the scraped table). -/
def exampleCrypto : CryptoInfo :=
  { rank := "1", name := "Bitcoin", price := "$100", oneHourChange := "0.1%",
    twentyFourHourChange := "1%", sevenDayChange := "2%", marketCap := "$1B",
    volume24h := "$1M", circulatingSupply := "19M BTC" }

/-- The same record with the em-dash rank the page shows for unranked
entries. -/
def exampleDashCrypto : CryptoInfo := { exampleCrypto with rank := "—" }

/-- An empty database: no table yet, no rows. -/
def emptyDB : Database := ⟨none, []⟩

/-- A fresh connection to the empty database. -/
def emptyConn : Conn := ⟨emptyDB, []⟩

/-- Witness for C1: failing the only row of a one-record batch on a fresh
connection leaves zero committed rows and raises. -/
theorem insert_all_or_nothing_witness :
    (insert_crypto_data emptyConn [exampleCrypto] 0 (some 0)).1.db.rows
        = emptyConn.db.rows ∧
    (insert_crypto_data emptyConn [exampleCrypto] 0 (some 0)).2
        = .error "pyodbc.Error" :=
  insert_all_or_nothing emptyConn [exampleCrypto] 0 0 rfl (by decide)

/-- C6: the stored rank is the decimal value of the rank text exactly
when that text is purely numeric (non-empty, all digit characters) and
null otherwise; the em-dash rank `"—"` maps to null; and a non-numeric
rank never makes the batch insert fail — without an injected write
failure the insert reports success for any input records. -/
theorem rank_nullable_never_fatal (now : Int) (crypto : CryptoInfo)
    (c : Conn) (data : List CryptoInfo) :
    ((crypto.rank.data ≠ [] ∧ ∀ ch ∈ crypto.rank.data, ch.isDigit) →
        (prepareRow now crypto).rank = some (strToNat crypto.rank)) ∧
    ((crypto.rank.data = [] ∨ ∃ ch ∈ crypto.rank.data, ¬ ch.isDigit = true) →
        (prepareRow now crypto).rank = none) ∧
    (prepareRow now { crypto with rank := "—" }).rank = none ∧
    (insert_crypto_data c data now none).2 = .ok data.length := by
  refine ⟨?_, ?_, ?_, ?_⟩
  · intro ⟨h1, h2⟩
    have : pyIsDigit crypto.rank = true := by
      simp [pyIsDigit, List.isEmpty_iff, h1, List.all_eq_true]
      exact h2
    simp [prepareRow, this]
  · intro h1
    have : pyIsDigit crypto.rank = false := by
      rcases h1 with h1 | ⟨ch, hm, hd⟩
      · simp [pyIsDigit, List.isEmpty_iff, h1]
      · simp [pyIsDigit, List.all_eq_true]
        intro _
        exact ⟨ch, hm, by simpa using hd⟩
    simp [prepareRow, this]
  · have : pyIsDigit "—" = false := by decide
    simp [prepareRow, this]
  · simp [insert_crypto_data, executemany]

/-- Witness for C6: numeric rank `"1"` stores as 1, em-dash rank stores
as null, and a batch holding the em-dash record inserts successfully. -/
theorem rank_nullable_never_fatal_witness :
    (prepareRow 0 exampleCrypto).rank = some (strToNat "1") ∧
    (prepareRow 0 exampleDashCrypto).rank = none ∧
    (insert_crypto_data emptyConn [exampleDashCrypto] 0 none).2 = .ok 1 :=
  ⟨(rank_nullable_never_fatal 0 exampleCrypto emptyConn [exampleDashCrypto]).1
      (by decide),
   (rank_nullable_never_fatal 0 exampleCrypto emptyConn
      [exampleDashCrypto]).2.2.1,
   (rank_nullable_never_fatal 0 exampleCrypto emptyConn
      [exampleDashCrypto]).2.2.2⟩

/-- C7: `current_time` is taken once per call to the batch insert, and on
a successful insert from a fresh connection every row committed by that
call carries that single shared timestamp. -/
theorem scraped_at_shared_per_batch (c : Conn) (data : List CryptoInfo)
    (now : Int) (hpend : c.pending = []) :
    (insert_crypto_data c data now none).1.db.rows
        = c.db.rows ++ data.map (prepareRow now) ∧
    ∀ r ∈ data.map (prepareRow now), r.scraped_at = now := by
  constructor
  · obtain ⟨⟨sch, rws⟩, pend⟩ := c
    simp only at hpend
    subst hpend
    cases sch <;>
      simp [insert_crypto_data, executemany, create_crypto_table, commitConn]
  · intro r hr
    obtain ⟨crypto, _, rfl⟩ := List.mem_map.mp hr
    rfl

/-- Witness for C7 at a concrete two-record batch. -/
theorem scraped_at_shared_per_batch_witness :
    (insert_crypto_data emptyConn [exampleCrypto, exampleDashCrypto] 5
        none).1.db.rows
      = emptyConn.db.rows
          ++ [exampleCrypto, exampleDashCrypto].map (prepareRow 5) ∧
    ∀ r ∈ [exampleCrypto, exampleDashCrypto].map (prepareRow 5),
      r.scraped_at = 5 :=
  scraped_at_shared_per_batch emptyConn [exampleCrypto, exampleDashCrypto]
    5 rfl

/-- C8: schema creation is idempotent: running it twice equals running it
once, it is a no-op (not an error) when the table already exists, after
one run the table exists, and the created index set has no duplicates. -/
theorem ensure_schema_idempotent (c : Conn) :
    create_crypto_table (create_crypto_table c) = create_crypto_table c ∧
    (∀ s, c.db.schema = some s → create_crypto_table c = c) ∧
    (create_crypto_table c).db.schema.isSome = true ∧
    cryptoTableSchema.indexes.Nodup := by
  obtain ⟨⟨sch, rws⟩, pend⟩ := c
  cases sch <;>
    simp [create_crypto_table] <;> decide

/-- A connection to a database that already has the crypto table. -/
def schemaConn : Conn := ⟨⟨some cryptoTableSchema, []⟩, []⟩

/-- Witness for C8: on a database that already has the table, creation is
a no-op and a second call changes nothing. -/
theorem ensure_schema_idempotent_witness :
    create_crypto_table (create_crypto_table schemaConn)
        = create_crypto_table schemaConn ∧
    create_crypto_table schemaConn = schemaConn :=
  ⟨(ensure_schema_idempotent schemaConn).1,
   (ensure_schema_idempotent schemaConn).2.1 cryptoTableSchema rfl⟩

/-- C9: whenever the batch insert returns without raising, the count it
reports is the length of the prepared row list — the length of the input
record list — not a count reported back by the database. -/
theorem insert_count_eq_input_length (c : Conn) (data : List CryptoInfo)
    (now : Int) (failAt : Option Nat) (n : Nat)
    (h : (insert_crypto_data c data now failAt).2 = .ok n) :
    n = data.length := by
  cases failAt with
  | none =>
    simp [insert_crypto_data, executemany] at h
    omega
  | some i =>
    by_cases hi : i < data.length
    · simp [insert_crypto_data, executemany, hi] at h
    · simp [insert_crypto_data, executemany, hi] at h
      omega

/-- Witness for C9 at a one-record batch. -/
theorem insert_count_eq_input_length_witness :
    (1 : Nat) = [exampleCrypto].length :=
  insert_count_eq_input_length emptyConn [exampleCrypto] 0 none 1 rfl

/-- C10: the retention pruning returns 0 on every injected failure
(connection, delete, or commit) instead of propagating it, and a
successful run that finds no row older than the cutoff also returns 0 —
so a result of 0 cannot distinguish the two. -/
theorem delete_old_data_zero_ambiguous (db : Database) (days now : Int)
    (hnone : ∀ r ∈ db.rows, ¬ (r.scraped_at < now - days)) :
    delete_old_data db days now true = (db, 0) ∧
    delete_old_data db days now false = (db, 0) := by
  refine ⟨rfl, ?_⟩
  have hfil : db.rows.filter (fun r => !(r.scraped_at < now - days))
      = db.rows := by
    apply List.filter_eq_self.mpr
    intro a ha
    simpa using hnone a ha
  simp [delete_old_data, hfil]

/-- A database holding one recent row (scraped at time 50). -/
def dbRecent : Database := ⟨none, [prepareRow 50 exampleCrypto]⟩

/-- Witness for C10: with a 30-day cutoff at time 60, both the failing
call and the successful call on a table with only a recent row return
`(dbRecent, 0)`. -/
theorem delete_old_data_zero_ambiguous_witness :
    delete_old_data dbRecent 30 60 true = (dbRecent, 0) ∧
    delete_old_data dbRecent 30 60 false = (dbRecent, 0) :=
  delete_old_data_zero_ambiguous dbRecent 30 60 (by decide)

/-- C5: the orchestrator never lets a lower-layer failure escape: a
scrape-step exception, an empty extraction, a connection failure, and a
write failure are all converted to a `false` outcome; and in the first
three cases the database is untouched, while a write failure leaves the
committed rows unchanged. -/
theorem main_converts_failures (db : Database)
    (sr : Except String (List CryptoInfo)) (now : Int) (connectFail : Bool)
    (failAt : Option Nat) :
    (∀ e, sr = .error e → main db sr now connectFail failAt = (db, false)) ∧
    (sr = .ok [] → main db sr now connectFail failAt = (db, false)) ∧
    (∀ data, sr = .ok data → connectFail = true →
        main db sr now connectFail failAt = (db, false)) ∧
    (∀ data i, sr = .ok data → failAt = some i → i < data.length →
        (main db sr now connectFail failAt).2 = false ∧
        (main db sr now connectFail failAt).1.rows = db.rows) := by
  refine ⟨?_, ?_, ?_, ?_⟩
  · rintro e rfl
    rfl
  · rintro rfl
    rfl
  · rintro data rfl rfl
    cases data with
    | nil => rfl
    | cons a t => rfl
  · rintro data i rfl rfl hi
    cases data with
    | nil => exact ⟨rfl, rfl⟩
    | cons a t =>
      cases connectFail with
      | true => exact ⟨rfl, rfl⟩
      | false =>
        obtain ⟨hrows, herr⟩ :=
          insert_fail_state (Conn.mk db []) (a :: t) now i rfl hi
        rcases hins : insert_crypto_data (Conn.mk db []) (a :: t) now (some i)
          with ⟨c2, res⟩
        rw [hins] at hrows herr
        simp only at hrows herr
        subst herr
        constructor
        · simp [main, save_to_sql_server, hins]
        · simp [main, save_to_sql_server, hins, hrows]

/-- Witness for C5 at concrete scenarios: a scrape exception, an empty
extraction, a connection failure, and a write failure on the only row. -/
theorem main_converts_failures_witness :
    main emptyDB (.error "boom") 0 false none = (emptyDB, false) ∧
    main emptyDB (.ok []) 0 false none = (emptyDB, false) ∧
    main emptyDB (.ok [exampleCrypto]) 0 true none = (emptyDB, false) ∧
    ((main emptyDB (.ok [exampleCrypto]) 0 false (some 0)).2 = false ∧
     (main emptyDB (.ok [exampleCrypto]) 0 false (some 0)).1.rows
        = emptyDB.rows) :=
  ⟨(main_converts_failures emptyDB (.error "boom") 0 false none).1 "boom" rfl,
   (main_converts_failures emptyDB (.ok []) 0 false none).2.1 rfl,
   (main_converts_failures emptyDB (.ok [exampleCrypto]) 0 true none).2.2.1
      [exampleCrypto] rfl rfl,
   (main_converts_failures emptyDB (.ok [exampleCrypto]) 0 false
      (some 0)).2.2.2 [exampleCrypto] 0 rfl rfl (by decide)⟩

end CoinScraper
